import Mathlib

/-!
Verification of `ReduxLocalStorage` (src/lib/ReduxLocalStorage.ts), a
persistence decorator for a redux "reduxable": it wraps a child state unit
and mirrors state to/from `window.localStorage` around the child's reducer.

Embedding overview:
* A JavaScript state object that may carry the `defaultStateSourceMarker`
  symbol is modelled as `WState V`: a marker flag plus the state value `V`.
* The child reduxable's pure reducer is a parameter `childReduce : V → A → V`;
  the reference-inequality test `nextState !== s` of the source is modelled as
  inequality on `V` (states are identified with their references, as the
  source's change detection assumes a copy-on-write child).
* `window.localStorage` is an association list of string keys to string
  values, plus a flag saying whether `setItem` throws (quota); `JSON.parse`,
  `JSON.stringify` and the configured transform may throw, so they are
  `Option`-valued.
* The reducer's side effects (successful `setItem` calls and `console.warn`
  diagnostics) are returned as an explicit event list.
-/

set_option autoImplicit false

universe u v w

/-- A redux action as the wrapper sees it: the wrapper only inspects the
action's `type` tag (a string); the payload is opaque, so actions are a type
parameter `A` with a tag projection kept in the configuration. -/
structure WState (V : Type u) where
  /-- Presence of the `defaultStateSourceMarker` symbol property on the
  state object (see `defaultStateSourceMarker` and `get defaultState`). -/
  marker : Bool
  /-- The rest of the state object: the child's state value. -/
  val : V
  deriving Repr, DecidableEq

/-- Model of `ReadWriteTransformer<S, M>` from the source: a pair of conversion
functions between the runtime state and the persisted form. Each may throw
(the source wraps their uses in `try`), hence `Option`. -/
structure RWTransformer (V : Type u) (M : Type v) where
  read : M → Option V
  write : V → Option M

/-- Storage write / diagnostic events observable from one reducer call:
a successful `localStorage.setItem(key, value)` and a `console.warn` message. -/
inductive Ev where
  | warn (msg : String)
  | set (key : String) (value : String)
  deriving Repr, DecidableEq

/-- The `localStorage` environment: stored key-value pairs, plus whether
`setItem` throws (e.g. quota exceeded). -/
structure LS where
  data : List (String × String)
  setFails : Bool
  deriving Repr, DecidableEq

/-- Embedding of `localStorage.getItem`: first binding of the key, `none` for JS `null`. -/
def storeGet (d : List (String × String)) (k : String) : Option String :=
  (d.find? (fun p => p.1 == k)).map (fun p => p.2)

/-- A successful `localStorage.setItem`: bind `k` to `v` (the new binding
shadows any previous one, which is observationally the JS update). -/
def storeSet (d : List (String × String)) (k v : String) : List (String × String) :=
  (k, v) :: d

/-- The wrapper's configuration after construction: the wrapped reduxable
(its default state and reducer), the storage key `target`, the resolved
transform and triggers, and the platform JSON codec. -/
structure Config (V : Type u) (M : Type v) (A : Type w) where
  /-- The child's default state value, `reduxable.defaultState`. -/
  childDefault : V
  /-- The child's pure transition function, `reduxable.reducer`. -/
  childReduce : V → A → V
  /-- Projection of `a.type` from an action. -/
  actionType : A → String
  /-- The storage key (`target`), fixed at construction. -/
  target : String
  /-- The resolved `this.transform` of the constructor. -/
  transform : RWTransformer V M
  /-- The configured `this.triggers`; `none` for `undefined`. -/
  triggers : Option (List String)
  /-- Platform `JSON.parse` on the persisted form; `none` models a throw. -/
  parse : String → Option M
  /-- Platform `JSON.stringify` of the persisted form; `none` models a throw
  (e.g. circular structure). -/
  stringify : M → Option String

/-- Model of `ReduxLocalStorageOptions`: optional transform and triggers. The default
transform (built in the constructor when none is given) is the pair of casts
`read: s => s`, `write: s => s`, which is only meaningful when the persisted
type equals the state type, so options are modelled at `M = V`. -/
structure RLSOptions (V : Type u) where
  transform : Option (RWTransformer V V)
  triggers : Option (List String)

/-- The identity transform built by the constructor when no transform option
is supplied. -/
def defaultTransform (V : Type u) : RWTransformer V V :=
  ⟨fun s => some s, fun s => some s⟩

/-- The constructor (lines 34–45): resolves
`options && options.transform ? options.transform : identity` and
`options ? options.triggers : undefined`. -/
def mkConfig {V : Type u} {A : Type w} (childDefault : V) (childReduce : V → A → V)
    (actionType : A → String) (target : String)
    (parse : String → Option V) (stringify : V → Option String)
    (opts : Option (RLSOptions V)) : Config V V A where
  childDefault := childDefault
  childReduce := childReduce
  actionType := actionType
  target := target
  transform :=
    match opts with
    | some o =>
      match o.transform with
      | some t => t
      | none => defaultTransform V
    | none => defaultTransform V
  triggers :=
    match opts with
    | some o => o.triggers
    | none => none
  parse := parse
  stringify := stringify

/-- Accessor `get actionMap` (lines 47–49): always throws
`Error('ReduxLocalStorage.actionMap should only be used as a TypeScript type provider (typeof .actionMap)')`.
Modelled as an `Except` that is always an error, for any requested action-map
type `AM`. -/
def actionMap {V : Type u} {M : Type v} {A : Type w} (_ : Config V M A) (AM : Type) :
    Except String AM :=
  Except.error
    "ReduxLocalStorage.actionMap should only be used as a TypeScript type provider (typeof .actionMap)"

/-- Accessor `get defaultState` (lines 54–59): the child's default state with the
`defaultStateSourceMarker` added. -/
def wrapperDefaultState {V : Type u} {M : Type v} {A : Type w} (c : Config V M A) : WState V :=
  ⟨true, c.childDefault⟩

/-- Diagnostic message of the unmarshal-failure `console.warn` (line 83). -/
def unmarshalMsg : String := "Could not unmarshal state from localStorage"

/-- Diagnostic message of the marshal-failure `console.warn` (line 108). -/
def marshalMsg : String := "Could not marshal state to localStorage"

/-- The guard of the persist step (line 102):
`nextState !== s && (triggers === undefined || triggers.indexOf(a.type) >= 0)`. -/
def shouldPersist {V : Type u} {M : Type v} {A : Type w} [DecidableEq V]
    (c : Config V M A) (sv nextState : V) (a : A) : Bool :=
  decide (nextState ≠ sv) &&
    (match c.triggers with
     | none => true
     | some ts => ts.contains (c.actionType a))

/-- The `try { localStorage.setItem(target, JSON.stringify(transform.write(nextState))) }`
block (lines 103–110): on any failure (transform throws, stringify throws, or
`setItem` throws) the store is untouched and the marshal warning is emitted;
on success the serialized form is stored at `target`. -/
def attemptPersist {V : Type u} {M : Type v} {A : Type w} (c : Config V M A)
    (ls : LS) (v : V) : LS × List Ev :=
  match (c.transform.write v).bind c.stringify with
  | none => (ls, [Ev.warn marshalMsg])
  | some str =>
    if ls.setFails then
      (ls, [Ev.warn marshalMsg])
    else
      ({ ls with data := storeSet ls.data c.target str }, [Ev.set c.target str])

/-- The result of one reducer invocation: the returned state, the storage
environment afterwards, and the observable events of the call. -/
structure RStep (V : Type u) where
  state : WState V
  store : LS
  events : List Ev
  deriving Repr, DecidableEq

/-- Embedding of `get internalReducer` (lines 61–113), the core reducer.

Initialization branch (marker present, lines 68–96): read `target` from the
store; if a string is present, try `transform.read(JSON.parse(str))` — on
success that value is the initialization state, on a throw emit the unmarshal
warning and fall back; the fallback initialization state is a clone of the
incoming default with the marker removed, i.e. the value `s.val`. Either way
the child's reducer is applied to the initialization state and the action.

Normal branch (marker absent, lines 99–112): delegate to the child's reducer;
if the result differs from the input by reference and the triggers allow this
action's type, attempt the persist step; return the child's result. -/
def internalReducer {V : Type u} {M : Type v} {A : Type w} [DecidableEq V]
    (c : Config V M A) (ls : LS) (s : WState V) (a : A) : RStep V :=
  if s.marker then
    match storeGet ls.data c.target with
    | some str =>
      match (c.parse str).bind c.transform.read with
      | some v => ⟨⟨false, c.childReduce v a⟩, ls, []⟩
      | none => ⟨⟨false, c.childReduce s.val a⟩, ls, [Ev.warn unmarshalMsg]⟩
    | none => ⟨⟨false, c.childReduce s.val a⟩, ls, []⟩
  else
    let nextState := c.childReduce s.val a
    let pr := if shouldPersist c s.val nextState a then attemptPersist c ls nextState
              else (ls, [])
    ⟨⟨false, nextState⟩, pr.1, pr.2⟩

/-- The initialization state resolved by the initialization branch (lines
68–93), together with the diagnostics of resolving it: the unmarshalled
stored value when present and readable, otherwise the marker-stripped clone
of the incoming default state. -/
def resolveInit {V : Type u} {M : Type v} {A : Type w} (c : Config V M A)
    (ls : LS) (s : WState V) : V × List Ev :=
  match storeGet ls.data c.target with
  | some str =>
    match (c.parse str).bind c.transform.read with
    | some v => (v, [])
    | none => (s.val, [Ev.warn unmarshalMsg])
  | none => (s.val, [])

/-- The state sequence of the child reduxable driven directly: each action is
applied by the child's reducer to the previous state. -/
def childTrace {V : Type u} {A : Type w} (red : V → A → V) : V → List A → List V
  | _, [] => []
  | v, a :: as =>
    let v' := red v a
    v' :: childTrace red v' as

/-- The state sequence of the wrapper: each action is fed to
`internalReducer`, threading the storage environment through. -/
def wrapperTrace {V : Type u} {M : Type v} {A : Type w} [DecidableEq V]
    (c : Config V M A) : LS → WState V → List A → List (WState V)
  | _, _, [] => []
  | ls, s, a :: as =>
    let r := internalReducer c ls s a
    r.state :: wrapperTrace c r.store r.state as

/-- The `triggers` condition of the persist guard as a proposition, in the
wording of the spec: `TriggerSet` is undefined, or the action's type tag is a
member of it. -/
def TriggerCond {V : Type u} {M : Type v} {A : Type w} (c : Config V M A) (a : A) : Prop :=
  c.triggers = none ∨ ∃ ts, c.triggers = some ts ∧ c.actionType a ∈ ts

/-!
Heap model of the two shallow-copy operations, for the frame claims about
mutation. A JavaScript object lives at a reference (an index) in a heap; the
two operations of interest allocate fresh objects and leave every existing
object unchanged.
-/

/-- A JS state object in the heap model: marker property plus state value. -/
structure JsObj (V : Type u) where
  marker : Bool
  val : V
  deriving Repr, DecidableEq

/-- Accessor `get defaultState` (lines 54–59) in the heap model:
`{ ...this.reduxable.defaultState, [defaultStateSourceMarker]: true }`
allocates a fresh object whose fields are a shallow copy of the object at
reference `r` with the marker set, and returns the new reference. -/
def defaultStateAlloc {V : Type u} [Inhabited V] (h : List (JsObj V)) (r : Nat) :
    List (JsObj V) × Nat :=
  (h ++ [⟨true, (h.getD r ⟨false, default⟩).val⟩], h.length)

/-- The fallback clone of the initialization branch (lines 86–92) in the heap
model: `inputState = { ...s }` followed by
`delete inputState[defaultStateSourceMarker]` allocates a fresh shallow copy
of the object at reference `r` and removes the marker from the copy only. -/
def cloneStripAlloc {V : Type u} [Inhabited V] (h : List (JsObj V)) (r : Nat) :
    List (JsObj V) × Nat :=
  (h ++ [⟨false, (h.getD r ⟨false, default⟩).val⟩], h.length)

/-!
Concrete fixtures (a small child reduxable over `Nat` with a string-tagged
action type and the decimal JSON codec), used to evaluate the model on
concrete inputs.
-/

/-- A concrete action carrying only its type tag. -/
structure TAct where
  type : String
  deriving Repr, DecidableEq

/-- A concrete child reducer: `TEST` increments, anything else is a no-op
returning the input state itself. -/
def tReduce (v : Nat) (a : TAct) : Nat :=
  if a.type = "TEST" then v + 1 else v

/-- A concrete JSON-codec stand-in for the fixtures: numbers in unary, so
that parsing and printing are structurally recursive and computable by
`decide`. -/
def tParse (s : String) : Option Nat :=
  if s.data.all (fun c => c = '1') then some s.data.length else none

/-- Serializer matching `tParse`. -/
def tPrint (m : Nat) : Option String :=
  some (String.mk (List.replicate m '1'))

/-- A concrete wrapper configuration: identity transform, no triggers,
unary codec, storage key `"k"`. -/
def tConfig : Config Nat Nat TAct where
  childDefault := 0
  childReduce := tReduce
  actionType := TAct.type
  target := "k"
  transform := defaultTransform Nat
  triggers := none
  parse := tParse
  stringify := tPrint

/-- Variant of `tConfig` with the empty trigger list. -/
def tConfigEmpty : Config Nat Nat TAct :=
  { tConfig with triggers := some [] }

/-- Variant of `tConfig` with a serializer that always throws. -/
def tConfigBad : Config Nat Nat TAct :=
  { tConfig with stringify := fun _ => none }

/-- Empty, healthy storage. -/
def tLS : LS := ⟨[], false⟩

/-- Variant of `tConfig` restricted to the `TEST` trigger, for the C9 witness: even a
matching trigger and a changed state persist nothing during initialization. -/
def tConfigTrig : Config Nat Nat TAct :=
  { tConfig with triggers := some ["TEST"] }

/-- Storage holding unparseable content at key `"k"`. -/
def tLSCorrupt : LS := ⟨[("k", "xx")], false⟩

/-!  Helper lemmas. -/

theorem storeGet_storeSet_self (d : List (String × String)) (k v : String) :
    storeGet (storeSet d k v) k = some v := by
  simp [storeGet, storeSet, List.find?]

theorem internalReducer_state_of_not_marker {V : Type u} {M : Type v} {A : Type w}
    [DecidableEq V] (c : Config V M A) (ls : LS) (s : WState V) (a : A)
    (h : s.marker = false) :
    (internalReducer c ls s a).state = ⟨false, c.childReduce s.val a⟩ := by
  simp [internalReducer, h]

theorem wrapperTrace_val_of_not_marker {V : Type u} {M : Type v} {A : Type w}
    [DecidableEq V] (c : Config V M A) (acts : List A) :
    ∀ (ls : LS) (v : V),
      (wrapperTrace c ls ⟨false, v⟩ acts).map WState.val
        = childTrace c.childReduce v acts := by
  induction acts with
  | nil => intro ls v; rfl
  | cons a as ih =>
    intro ls v
    have hs : (internalReducer c ls ⟨false, v⟩ a).state = ⟨false, c.childReduce v a⟩ :=
      internalReducer_state_of_not_marker c ls ⟨false, v⟩ a rfl
    simp [wrapperTrace, childTrace, hs, ih]

/-- C1. Passthrough equivalence: with nothing stored at `StorageKey`, the
wrapper's state sequence from its marked default state equals the child's
state sequence from the child's default state under the same actions, and the
storage writes performed along the way never alter the returned states. -/
theorem passthrough_equivalence {V : Type u} {M : Type v} {A : Type w}
    [DecidableEq V] (c : Config V M A) (ls : LS) (acts : List A)
    (h : storeGet ls.data c.target = none) :
    (wrapperTrace c ls (wrapperDefaultState c) acts).map WState.val
      = childTrace c.childReduce c.childDefault acts := by
  cases acts with
  | nil => rfl
  | cons a as =>
    have h1 : internalReducer c ls (wrapperDefaultState c) a
        = ⟨⟨false, c.childReduce c.childDefault a⟩, ls, []⟩ := by
      simp [internalReducer, wrapperDefaultState, h]
    simp [wrapperTrace, childTrace, h1, wrapperTrace_val_of_not_marker]

/-- Witness for C1 at the concrete fixture: two actions driven from empty
storage. -/
theorem passthrough_equivalence_witness :
    storeGet tLS.data tConfig.target = none ∧
    (wrapperTrace tConfig tLS (wrapperDefaultState tConfig)
        [⟨"TEST"⟩, ⟨"OTHER"⟩]).map WState.val
      = childTrace tConfig.childReduce tConfig.childDefault [⟨"TEST"⟩, ⟨"OTHER"⟩] :=
  ⟨rfl, passthrough_equivalence tConfig tLS [⟨"TEST"⟩, ⟨"OTHER"⟩] rfl⟩

theorem shouldPersist_iff {V : Type u} {M : Type v} {A : Type w} [DecidableEq V]
    (c : Config V M A) (sv ns : V) (a : A) :
    shouldPersist c sv ns a = true ↔ ns ≠ sv ∧ TriggerCond c a := by
  unfold shouldPersist TriggerCond
  cases ht : c.triggers with
  | none => simp [ht]
  | some ts => simp [ht, List.contains, List.elem_iff]

/-- C2. Trigger semantics: in the normal (marker-absent) branch a storage
write at `StorageKey` is attempted (observable as a successful `setItem`
event or a marshal-failure warning) if and only if the child's result is
reference-different from the input state and the triggers allow the action's
type; with the empty trigger list the store is untouched and no event is
emitted. -/
theorem trigger_write_iff {V : Type u} {M : Type v} {A : Type w} [DecidableEq V]
    (c : Config V M A) (ls : LS) (s : WState V) (a : A) (hm : s.marker = false) :
    (((∃ w, Ev.set c.target w ∈ (internalReducer c ls s a).events) ∨
        Ev.warn marshalMsg ∈ (internalReducer c ls s a).events)
      ↔ (c.childReduce s.val a ≠ s.val ∧ TriggerCond c a))
    ∧ (c.triggers = some [] →
        (internalReducer c ls s a).store = ls ∧ (internalReducer c ls s a).events = []) := by
  constructor
  · rw [← shouldPersist_iff c s.val (c.childReduce s.val a) a]
    cases hp : shouldPersist c s.val (c.childReduce s.val a) a with
    | false => simp [internalReducer, hm, hp]
    | true =>
      simp only [internalReducer, hm, Bool.false_eq_true, if_false, hp, if_true]
      unfold attemptPersist
      cases hw : (c.transform.write (c.childReduce s.val a)).bind c.stringify with
      | none => simp
      | some str => cases hsf : ls.setFails <;> simp
  · intro he
    have hp : shouldPersist c s.val (c.childReduce s.val a) a = false := by
      simp [shouldPersist, he]
    simp [internalReducer, hm, hp]

/-- Witness for C2: the no-trigger fixture on a state-changing `TEST` action. -/
theorem trigger_write_iff_witness :
    ((((∃ w, Ev.set tConfigEmpty.target w
            ∈ (internalReducer tConfigEmpty tLS ⟨false, 0⟩ ⟨"TEST"⟩).events) ∨
        Ev.warn marshalMsg ∈ (internalReducer tConfigEmpty tLS ⟨false, 0⟩ ⟨"TEST"⟩).events)
      ↔ (tConfigEmpty.childReduce 0 ⟨"TEST"⟩ ≠ 0 ∧ TriggerCond tConfigEmpty ⟨"TEST"⟩))
    ∧ (tConfigEmpty.triggers = some [] →
        (internalReducer tConfigEmpty tLS ⟨false, 0⟩ ⟨"TEST"⟩).store = tLS
        ∧ (internalReducer tConfigEmpty tLS ⟨false, 0⟩ ⟨"TEST"⟩).events = [])) :=
  trigger_write_iff tConfigEmpty tLS ⟨false, 0⟩ ⟨"TEST"⟩ rfl

/-- C3. Marshal-failure atomicity: in the normal branch, when the persist
step would run but transforming, serializing, or the `setItem` call fails,
the reducer still returns the child's `nextState`, the store is untouched,
and exactly the marshal-failure diagnostic is emitted (the model is a total
function, so no exception escapes). -/
theorem marshal_failure_atomic {V : Type u} {M : Type v} {A : Type w} [DecidableEq V]
    (c : Config V M A) (ls : LS) (s : WState V) (a : A) (hm : s.marker = false)
    (hcond : shouldPersist c s.val (c.childReduce s.val a) a = true)
    (hfail : (c.transform.write (c.childReduce s.val a)).bind c.stringify = none
              ∨ ls.setFails = true) :
    internalReducer c ls s a = ⟨⟨false, c.childReduce s.val a⟩, ls, [Ev.warn marshalMsg]⟩ := by
  simp only [internalReducer, hm, Bool.false_eq_true, if_false, hcond, if_true]
  unfold attemptPersist
  rcases hfail with hf | hf
  · simp [hf]
  · cases hw : (c.transform.write (c.childReduce s.val a)).bind c.stringify with
    | none => simp
    | some str => simp [hf]

/-- Witness for C3: a serializer that always throws, on a state-changing
action that the (undefined) triggers allow. -/
theorem marshal_failure_atomic_witness :
    (⟨false, 0⟩ : WState Nat).marker = false
    ∧ shouldPersist tConfigBad 0 (tConfigBad.childReduce 0 ⟨"TEST"⟩) ⟨"TEST"⟩ = true
    ∧ internalReducer tConfigBad tLS ⟨false, 0⟩ ⟨"TEST"⟩
        = ⟨⟨false, tConfigBad.childReduce 0 ⟨"TEST"⟩⟩, tLS, [Ev.warn marshalMsg]⟩ :=
  ⟨rfl, by decide,
    marshal_failure_atomic tConfigBad tLS ⟨false, 0⟩ ⟨"TEST"⟩ rfl (by decide) (Or.inl rfl)⟩

/-- C4. Unmarshal-failure fallback: on the initialization invocation, when
storage holds a value at `StorageKey` that cannot be parsed and transformed,
the reducer emits exactly the unmarshal-failure diagnostic, initializes from
the marker-stripped copy of the incoming default state (its value `s.val`),
delegates to the child, and leaves the store untouched (the model is a total
function, so no exception escapes). -/
theorem unmarshal_failure_fallback {V : Type u} {M : Type v} {A : Type w} [DecidableEq V]
    (c : Config V M A) (ls : LS) (s : WState V) (a : A) (str : String)
    (hm : s.marker = true)
    (hstored : storeGet ls.data c.target = some str)
    (hfail : (c.parse str).bind c.transform.read = none) :
    internalReducer c ls s a = ⟨⟨false, c.childReduce s.val a⟩, ls, [Ev.warn unmarshalMsg]⟩ := by
  simp [internalReducer, hm, hstored, hfail]

/-- Witness for C4: corrupt storage content `"xx"` under the decimal codec. -/
theorem unmarshal_failure_fallback_witness :
    storeGet tLSCorrupt.data tConfig.target = some "xx"
    ∧ (tConfig.parse "xx").bind tConfig.transform.read = none
    ∧ internalReducer tConfig tLSCorrupt ⟨true, 0⟩ ⟨"TEST"⟩
        = ⟨⟨false, tConfig.childReduce 0 ⟨"TEST"⟩⟩, tLSCorrupt, [Ev.warn unmarshalMsg]⟩ :=
  ⟨rfl, by decide,
    unmarshal_failure_fallback tConfig tLSCorrupt ⟨true, 0⟩ ⟨"TEST"⟩ "xx" rfl rfl (by decide)⟩

/-- C5. Round trip: after a successful persist of state `S` (which stores the
serialization `str` of `Transform.write S` at `StorageKey`), a fresh wrapper
run on its marked default state resolves `Transform.read` of the JSON-parse
of the stored string — `S'` — as its initialization state and delegates the
action to the child from there. For the identity transform the hypotheses
force `S' = S` (exhibited by the witness). -/
theorem round_trip_init {V : Type u} {M : Type v} {A : Type w} [DecidableEq V]
    (c : Config V M A) (ls : LS) (S S' : V) (m : M) (str : String) (d : V) (a : A)
    (hw : c.transform.write S = some m) (hs : c.stringify m = some str)
    (hok : ls.setFails = false)
    (hp : c.parse str = some m) (hr : c.transform.read m = some S') :
    attemptPersist c ls S
      = ({ ls with data := storeSet ls.data c.target str }, [Ev.set c.target str])
    ∧ internalReducer c (attemptPersist c ls S).1 ⟨true, d⟩ a
      = ⟨⟨false, c.childReduce S' a⟩, (attemptPersist c ls S).1, []⟩ := by
  have hap : attemptPersist c ls S
      = ({ ls with data := storeSet ls.data c.target str }, [Ev.set c.target str]) := by
    simp [attemptPersist, hw, hs, hok]
  refine ⟨hap, ?_⟩
  rw [hap]
  simp [internalReducer, storeGet_storeSet_self, hp, hr]

/-- Witness for C5 with the identity transform: persisting `5` stores
`"11111"`, and the fresh wrapper initializes from `5 = S` itself. -/
theorem round_trip_init_witness :
    tConfig.transform.write 5 = some 5
    ∧ tConfig.stringify 5 = some "11111"
    ∧ tConfig.parse "11111" = some 5
    ∧ tConfig.transform.read 5 = some 5
    ∧ internalReducer tConfig (attemptPersist tConfig tLS 5).1 ⟨true, 0⟩ ⟨"X"⟩
        = ⟨⟨false, tConfig.childReduce 5 ⟨"X"⟩⟩, (attemptPersist tConfig tLS 5).1, []⟩ :=
  ⟨rfl, by decide, by decide, rfl,
    (round_trip_init tConfig tLS 5 5 5 "11111" 0 ⟨"X"⟩ rfl (by decide) rfl (by decide)
      rfl).2⟩

/-- C6. Marker hygiene: every state the reducer returns is marker-free, and
every value a reducer call stores is the serialization of a transform-written
state value — a form in which the marker (a field of `WState`, not of `V`)
cannot occur. -/
theorem marker_hygiene {V : Type u} {M : Type v} {A : Type w} [DecidableEq V]
    (c : Config V M A) (ls : LS) (s : WState V) (a : A) :
    (internalReducer c ls s a).state.marker = false
    ∧ ∀ k w, Ev.set k w ∈ (internalReducer c ls s a).events →
        ∃ x mm, c.transform.write x = some mm ∧ c.stringify mm = some w := by
  cases hsm : s.marker with
  | true =>
    cases hst : storeGet ls.data c.target with
    | none => simp [internalReducer, hsm, hst]
    | some str =>
      cases hrd : (c.parse str).bind c.transform.read with
      | none => simp [internalReducer, hsm, hst, hrd]
      | some v => simp [internalReducer, hsm, hst, hrd]
  | false =>
    cases hp : shouldPersist c s.val (c.childReduce s.val a) a with
    | false => simp [internalReducer, hsm, hp]
    | true =>
      refine ⟨by simp [internalReducer, hsm, hp], fun k w hmem => ?_⟩
      simp only [internalReducer, hsm, Bool.false_eq_true, if_false, hp, if_true] at hmem
      unfold attemptPersist at hmem
      cases hbind : (c.transform.write (c.childReduce s.val a)).bind c.stringify with
      | none => rw [hbind] at hmem; simp at hmem
      | some str =>
        rw [hbind] at hmem
        obtain ⟨mm, hmm1, hmm2⟩ := Option.bind_eq_some.mp hbind
        cases hsf : ls.setFails with
        | true => rw [hsf] at hmem; simp at hmem
        | false =>
          rw [hsf] at hmem
          simp only [Bool.false_eq_true, if_false, List.mem_singleton, Ev.set.injEq] at hmem
          exact ⟨c.childReduce s.val a, mm, hmm1, hmem.2 ▸ hmm2⟩

/-- Witness for C6: a normal-branch call on the fixture returns a marker-free
state. -/
theorem marker_hygiene_witness :
    (internalReducer tConfig tLS ⟨false, 0⟩ ⟨"TEST"⟩).state.marker = false :=
  (marker_hygiene tConfig tLS ⟨false, 0⟩ ⟨"TEST"⟩).1

/-- C7. Initialization processes the action: with the marker present, the
reducer returns exactly the child's reducer applied to the resolved
initialization state and the incoming action (emitting only the diagnostics
of resolving that state, and leaving the store as it was). -/
theorem init_processes_action {V : Type u} {M : Type v} {A : Type w} [DecidableEq V]
    (c : Config V M A) (ls : LS) (s : WState V) (a : A) (hm : s.marker = true) :
    internalReducer c ls s a
      = ⟨⟨false, c.childReduce (resolveInit c ls s).1 a⟩, ls, (resolveInit c ls s).2⟩ := by
  cases hst : storeGet ls.data c.target with
  | none => simp [internalReducer, resolveInit, hm, hst]
  | some str =>
    cases hrd : (c.parse str).bind c.transform.read with
    | none => simp [internalReducer, resolveInit, hm, hst, hrd]
    | some v => simp [internalReducer, resolveInit, hm, hst, hrd]

/-- Witness for C7: initialization from a stored `"11"` (state `2`) processes
the `TEST` action, producing `3`. -/
theorem init_processes_action_witness :
    internalReducer tConfig ⟨[("k", "11")], false⟩ ⟨true, 0⟩ ⟨"TEST"⟩
      = ⟨⟨false, tConfig.childReduce
            (resolveInit tConfig ⟨[("k", "11")], false⟩ ⟨true, 0⟩).1 ⟨"TEST"⟩⟩,
          ⟨[("k", "11")], false⟩,
          (resolveInit tConfig ⟨[("k", "11")], false⟩ ⟨true, 0⟩).2⟩ :=
  init_processes_action tConfig ⟨[("k", "11")], false⟩ ⟨true, 0⟩ ⟨"TEST"⟩ rfl

/-- C8. The `actionMap` accessor always throws: for every construction of the
wrapper (any child, key, and options) and any requested action-map type, the
accessor is the error of the source's message and never a returned value. -/
theorem actionMap_always_throws {V : Type u} {A : Type w} (childDefault : V)
    (childReduce : V → A → V) (actionType : A → String) (target : String)
    (parse : String → Option V) (stringify : V → Option String)
    (opts : Option (RLSOptions V)) (AM : Type) :
    actionMap (mkConfig childDefault childReduce actionType target parse stringify opts) AM
      = Except.error
          "ReduxLocalStorage.actionMap should only be used as a TypeScript type provider (typeof .actionMap)"
    ∧ ∀ x : AM,
        actionMap (mkConfig childDefault childReduce actionType target parse stringify opts) AM
          ≠ Except.ok x := by
  refine ⟨rfl, fun x h => ?_⟩
  simp [actionMap] at h

/-- Witness for C8 at a concrete construction. -/
theorem actionMap_always_throws_witness :
    actionMap (mkConfig 0 tReduce TAct.type "k" tParse tPrint none) Unit
      ≠ Except.ok () :=
  (actionMap_always_throws 0 tReduce TAct.type "k" tParse tPrint none Unit).2 ()

/-- C9. No persistence during initialization: with the marker present the
reducer leaves the storage environment exactly as it was and performs no
`setItem`, whatever the child transition and the configured triggers. -/
theorem init_never_persists {V : Type u} {M : Type v} {A : Type w} [DecidableEq V]
    (c : Config V M A) (ls : LS) (s : WState V) (a : A) (hm : s.marker = true) :
    (internalReducer c ls s a).store = ls
    ∧ ∀ k w, Ev.set k w ∉ (internalReducer c ls s a).events := by
  cases hst : storeGet ls.data c.target with
  | none => simp [internalReducer, hm, hst]
  | some str =>
    cases hrd : (c.parse str).bind c.transform.read with
    | none => simp [internalReducer, hm, hst, hrd]
    | some v => simp [internalReducer, hm, hst, hrd]

/-- Witness for C9: initialization under a matching trigger with a changing
`TEST` transition still leaves the store untouched. -/
theorem init_never_persists_witness :
    (internalReducer tConfigTrig tLS ⟨true, 0⟩ ⟨"TEST"⟩).store = tLS :=
  (init_never_persists tConfigTrig tLS ⟨true, 0⟩ ⟨"TEST"⟩ rfl).1

/-- C10. The copies do not mutate: in the heap model, the `defaultState`
accessor allocates a fresh marked shallow copy of the child's default-state
object, and the initialization fallback allocates a fresh marker-free shallow
copy of the incoming state object; in both cases every pre-existing object —
in particular the one copied from — is left exactly as it was. -/
theorem copies_do_not_mutate {V : Type u} [Inhabited V] (h : List (JsObj V)) (r : Nat)
    (hr : r < h.length) :
    (defaultStateAlloc h r).2 ≠ r
    ∧ (∀ i, i < h.length → (defaultStateAlloc h r).1[i]? = h[i]?)
    ∧ (defaultStateAlloc h r).1[(defaultStateAlloc h r).2]?
        = some ⟨true, (h.getD r ⟨false, default⟩).val⟩
    ∧ (cloneStripAlloc h r).2 ≠ r
    ∧ (∀ i, i < h.length → (cloneStripAlloc h r).1[i]? = h[i]?)
    ∧ (cloneStripAlloc h r).1[(cloneStripAlloc h r).2]?
        = some ⟨false, (h.getD r ⟨false, default⟩).val⟩ := by
  refine ⟨hr.ne', fun i hi => List.getElem?_append_left hi, ?_, hr.ne',
    fun i hi => List.getElem?_append_left hi, ?_⟩
  · simp [defaultStateAlloc, List.getElem?_concat_length]
  · simp [cloneStripAlloc, List.getElem?_concat_length]

/-- Witness for C10: copying the marked default object at reference `0`
allocates a fresh reference holding the same value. -/
theorem copies_do_not_mutate_witness :
    (defaultStateAlloc [JsObj.mk true (7 : Nat)] 0).2 ≠ 0
    ∧ (cloneStripAlloc [JsObj.mk true (7 : Nat)] 0).1[(cloneStripAlloc [JsObj.mk true (7 : Nat)] 0).2]? = some ⟨false, 7⟩
    ∧ (cloneStripAlloc [JsObj.mk true (7 : Nat)] 0).1[(0 : Nat)]? = some ⟨true, 7⟩ :=
  ⟨(copies_do_not_mutate [JsObj.mk true (7 : Nat)] 0 (by decide)).1,
    (copies_do_not_mutate [JsObj.mk true (7 : Nat)] 0 (by decide)).2.2.2.2.2,
    ((copies_do_not_mutate [JsObj.mk true (7 : Nat)] 0 (by decide)).2.2.2.2.1 0
      (by decide)).trans rfl⟩
